import Mathlib

/-!
Shallow embedding of the per-series storage engine of m3
(src/dbnode/storage/series/series.go) and proofs of the specification
claims about it.

Time instants and durations are modelled as `Int` nanosecond counts,
mirroring Go `time.Time` / `time.Duration`.  Effectful operations are
modelled as pure state transformers returning an outcome record that
carries the new series state together with the externally observable
effects (errors returned, blocks closed, calls delegated to the write
buffer, wired-list updates issued).
-/

namespace M3Series

/-- Go `time.Time.Truncate`: round `t` down to a multiple of `d` since the
zero time (a no-op for `d ≤ 0`). -/
def timeTruncate (t d : Int) : Int :=
  if d ≤ 0 then t else t - t % d

/-- Cache policies, from the spec's cache-policy enum (the options package
is not part of the supplied source): `{CacheAll, CacheNone,
CacheRecentlyRead, CacheLRU}`. -/
inductive CachePolicy where
  | CacheAll
  | CacheNone
  | CacheRecentlyRead
  | CacheLRU
  deriving DecidableEq, Repr

/-- Modelled from the spec: `block.DatabaseBlock` (the block package is not
part of the supplied source).  An immutable time-bounded container keyed by
start time, tagged with whether it was reconstructed from disk, its last
read time and whether it has a pending merge target.  The encoded payload
is abstracted as a `Nat` token. -/
structure DatabaseBlock where
  startTime : Int
  blockSize : Int
  segment : Nat
  retrievedFromDisk : Bool
  lastReadTime : Int
  hasMergeTarget : Bool
  deriving DecidableEq, Repr

/-- Per-block-start flush state supplied by the shard layer. -/
structure BlockState where
  warmRetrievable : Bool
  deriving DecidableEq, Repr

/-- `BootstrappedBlockStateSnapshot`: map from block start to `BlockState`;
a missing entry is the zero value (`warmRetrievable = false`), so the map
is modelled as a total function. -/
structure BootstrappedBlockStateSnapshot where
  snapshot : Int → BlockState

/-- `ShardBlockStateSnapshot`: a `BootstrappedBlockStateSnapshot` optionally
wrapped as not-yet-bootstrapped; `UnwrapValue` is the `Option` pattern
match. -/
abbrev ShardBlockStateSnapshot := Option BootstrappedBlockStateSnapshot

/-- Write types for buffer loads. -/
inductive WriteType where
  | WarmWrite
  | ColdWrite
  deriving DecidableEq, Repr

/-- Modelled from the spec: flush outcomes returned by the write buffer
(the buffer implementation is not part of the supplied source); the series
itself only constructs `FlushOutcomeErr`. -/
inductive FlushOutcome where
  | FlushOutcomeErr
  | FlushOutcomeFlushedToDisk
  deriving DecidableEq, Repr

/-- A delegation of WarmFlush/Snapshot to the write buffer, recording the
arguments the series passed (the persistence function is abstracted as a
`Nat` token). -/
structure FlushCall where
  blockStart : Int
  id : Option Nat
  tags : List Nat
  persistFnId : Nat
  deriving DecidableEq, Repr

/-- A delegation of a block load to the write buffer. -/
structure BufferLoadCall where
  block : DatabaseBlock
  writeType : WriteType
  deriving DecidableEq, Repr

/-- Result of the write buffer's own tick. -/
structure bufferTickResult where
  mergedOutOfOrderBlocks : Nat
  evictedBucketTimes : List Int
  deriving DecidableEq, Repr

/-- Modelled from the spec: `databaseBuffer` (the buffer implementation is
not part of the supplied source).  Its observable outputs (tick result,
wired-block stats, flush outcomes) are oracle fields, and the calls the
series delegates to it (`Load`, `WarmFlush`, `Snapshot`) are recorded in
call logs. -/
structure databaseBuffer where
  tickResult : bufferTickResult
  wiredBlocks : Nat
  warmFlushOutcome : FlushOutcome
  warmFlushErr : Option Nat
  snapshotErr : Option Nat
  loadCalls : List BufferLoadCall
  warmFlushCalls : List FlushCall
  snapshotCalls : List FlushCall
  deriving DecidableEq, Repr

/-- `buffer.Tick`: reports merged out-of-order blocks and the bucket times
evicted this cycle. -/
def databaseBuffer.Tick (b : databaseBuffer) : bufferTickResult :=
  b.tickResult

/-- `buffer.Stats().wiredBlocks`. -/
def databaseBuffer.Stats (b : databaseBuffer) : Nat :=
  b.wiredBlocks

/-- `buffer.Load(block, writeType)`: records the load. -/
def databaseBuffer.Load (b : databaseBuffer) (blk : DatabaseBlock)
    (wt : WriteType) : databaseBuffer :=
  { b with loadCalls := b.loadCalls ++ [⟨blk, wt⟩] }

/-- `buffer.WarmFlush(...)`: records the delegation and returns the oracle
outcome. -/
def databaseBuffer.WarmFlush (b : databaseBuffer) (blockStart : Int)
    (id : Option Nat) (tags : List Nat) (persistFnId : Nat) :
    FlushOutcome × Option Nat × databaseBuffer :=
  (b.warmFlushOutcome, b.warmFlushErr,
    { b with warmFlushCalls := b.warmFlushCalls ++ [⟨blockStart, id, tags, persistFnId⟩] })

/-- `buffer.Snapshot(...)`: records the delegation and returns the oracle
error. -/
def databaseBuffer.Snapshot (b : databaseBuffer) (blockStart : Int)
    (id : Option Nat) (tags : List Nat) (persistFnId : Nat) :
    Option Nat × databaseBuffer :=
  (b.snapshotErr,
    { b with snapshotCalls := b.snapshotCalls ++ [⟨blockStart, id, tags, persistFnId⟩] })

/-- `buffer.Reset(id, opts)`: a freshly reset buffer. -/
def resetBuffer : databaseBuffer :=
  ⟨⟨0, []⟩, 0, FlushOutcome.FlushOutcomeFlushedToDisk, none, none, [], [], []⟩

/-- Errors surfaced by the series (`errSeriesAlreadyBootstrapped`,
`errSeriesNotBootstrapped`, `ErrSeriesAllDatapointsExpired`), plus a
wrapper for errors propagated unchanged from the write buffer. -/
inductive seriesError where
  | allDatapointsExpired
  | alreadyBootstrapped
  | notBootstrapped
  | bufferError (code : Nat)
  deriving DecidableEq, Repr

/-- Bootstrap state enum from series.go. -/
inductive bootstrapState where
  | bootstrapNotStarted
  | bootstrapped
  deriving DecidableEq, Repr

/-- The subset of `Options` the series consults: clock, retention options,
cache policy, and whether a wired list is configured. -/
structure Options where
  now : Int
  retentionPeriod : Int
  blockSize : Int
  blockDataExpiryAfterNotAccessedPeriod : Int
  cachePolicy : CachePolicy
  wiredListConfigured : Bool
  deriving DecidableEq, Repr

/-- The `dbSeries` state: identity, write buffer, block cache, bootstrap
state, and whether the instance is pooled. -/
structure dbSeries where
  id : Option Nat
  tags : List Nat
  buffer : databaseBuffer
  cachedBlocks : List DatabaseBlock
  bs : bootstrapState
  pooled : Bool
  opts : Options
  deriving DecidableEq, Repr

/-- Modelled from the spec: `DatabaseSeriesBlocks.AddBlock` (block package
not in the supplied source) — map insert keyed by start time, replacing any
entry at the same key. -/
def AddBlock (b : DatabaseBlock) (blocks : List DatabaseBlock) : List DatabaseBlock :=
  b :: blocks.filter (fun x => !(x.startTime == b.startTime))

/-- Modelled from the spec: `DatabaseSeriesBlocks.BlockAt` — point lookup
by start time. -/
def BlockAt (blocks : List DatabaseBlock) (t : Int) : Option DatabaseBlock :=
  blocks.find? (fun b => b.startTime == t)

/-- Modelled from the spec: `DatabaseSeriesBlocks.RemoveBlockAt` — removal
by start time (does not close). -/
def RemoveBlockAt (t : Int) (blocks : List DatabaseBlock) : List DatabaseBlock :=
  blocks.filter (fun b => !(b.startTime == t))

/-- `expireCutoff = now.Add(-retentionPeriod).Truncate(blockSize)` from
`updateBlocksWithLock`. -/
def expireCutoff (opts : Options) : Int :=
  timeTruncate (opts.now - opts.retentionPeriod) opts.blockSize

/-- The expiry condition of `updateBlocksWithLock`:
`start.Before(expireCutoff) || evictedBucketTimes.Contains(start)`. -/
def blockExpired (opts : Options) (evictedBucketTimes : List Int)
    (b : DatabaseBlock) : Bool :=
  decide (b.startTime < expireCutoff opts) || evictedBucketTimes.contains b.startTime

/-- The `shouldUnwire` computation of `updateBlocksWithLock`: only when the
snapshot is bootstrapped and the start's `WarmRetrievable` flag is true
does the policy-specific rule run (`CacheNone`: always; `CacheRecentlyRead`:
`now - lastReadTime >= wiredTimeout`; `CacheLRU`: only blocks not retrieved
from disk).  The `CacheAll` arm is unreachable — `updateBlocksWithLock`
has already continued for that policy (in Go it is the fatal default). -/
def blockShouldUnwire (opts : Options) (blockStates : ShardBlockStateSnapshot)
    (b : DatabaseBlock) : Bool :=
  match blockStates with
  | none => false
  | some snap =>
    if (snap.snapshot b.startTime).warmRetrievable then
      match opts.cachePolicy with
      | CachePolicy.CacheNone => true
      | CachePolicy.CacheRecentlyRead =>
          decide (opts.blockDataExpiryAfterNotAccessedPeriod ≤ opts.now - b.lastReadTime)
      | CachePolicy.CacheLRU => !b.retrievedFromDisk
      | CachePolicy.CacheAll => false
    else false

/-- Fate of one cached block in the `updateBlocksWithLock` loop body. -/
inductive BlockTickOutcome where
  | expiredClosed
  | expiredUnclosed
  | wiredCacheAll
  | wiredStay
  | unwiredClosed
  deriving DecidableEq, Repr

/-- One iteration of the `updateBlocksWithLock` loop: expiry check first
(removal, closed unless `CacheLRU` and retrieved from disk); then active;
`CacheAll` never unwires (and skips the merge-target check via `continue`);
otherwise unwire when `shouldUnwire` holds. -/
def tickBlockBody (opts : Options) (blockStates : ShardBlockStateSnapshot)
    (evictedBucketTimes : List Int) (b : DatabaseBlock) : BlockTickOutcome :=
  if blockExpired opts evictedBucketTimes b then
    if opts.cachePolicy = CachePolicy.CacheLRU ∧ b.retrievedFromDisk = true then
      BlockTickOutcome.expiredUnclosed
    else
      BlockTickOutcome.expiredClosed
  else if opts.cachePolicy = CachePolicy.CacheAll then
    BlockTickOutcome.wiredCacheAll
  else if blockShouldUnwire opts blockStates b then
    BlockTickOutcome.unwiredClosed
  else
    BlockTickOutcome.wiredStay

/-- Accumulator of the `updateBlocksWithLock` loop: the counters plus the
blocks kept in the cache and the blocks closed. -/
structure tickAcc where
  activeBlocks : Nat
  wiredBlocks : Nat
  unwiredBlocks : Nat
  pendingMergeBlocks : Nat
  madeExpiredBlocks : Nat
  madeUnwiredBlocks : Nat
  kept : List DatabaseBlock
  closed : List DatabaseBlock
  deriving DecidableEq, Repr

/-- The `updateBlocksWithLock` loop over the cached blocks.  Each block is
processed independently; removal during iteration is modelled by the block
simply not entering `kept`. -/
def tickLoop (opts : Options) (blockStates : ShardBlockStateSnapshot)
    (evictedBucketTimes : List Int) : List DatabaseBlock → tickAcc
  | [] => ⟨0, 0, 0, 0, 0, 0, [], []⟩
  | b :: rest =>
    let acc := tickLoop opts blockStates evictedBucketTimes rest
    match tickBlockBody opts blockStates evictedBucketTimes b with
    | BlockTickOutcome.expiredClosed =>
        { acc with madeExpiredBlocks := acc.madeExpiredBlocks + 1,
                   closed := b :: acc.closed }
    | BlockTickOutcome.expiredUnclosed =>
        { acc with madeExpiredBlocks := acc.madeExpiredBlocks + 1 }
    | BlockTickOutcome.wiredCacheAll =>
        { acc with activeBlocks := acc.activeBlocks + 1,
                   wiredBlocks := acc.wiredBlocks + 1,
                   kept := b :: acc.kept }
    | BlockTickOutcome.wiredStay =>
        { acc with activeBlocks := acc.activeBlocks + 1,
                   wiredBlocks := acc.wiredBlocks + 1,
                   pendingMergeBlocks :=
                     acc.pendingMergeBlocks + (if b.hasMergeTarget then 1 else 0),
                   kept := b :: acc.kept }
    | BlockTickOutcome.unwiredClosed =>
        { acc with activeBlocks := acc.activeBlocks + 1,
                   unwiredBlocks := acc.unwiredBlocks + 1,
                   madeUnwiredBlocks := acc.madeUnwiredBlocks + 1,
                   closed := b :: acc.closed }

/-- `TickStatus` counters. -/
structure TickStatus where
  ActiveBlocks : Nat
  WiredBlocks : Nat
  UnwiredBlocks : Nat
  PendingMergeBlocks : Nat
  deriving DecidableEq, Repr

/-- `updateBlocksResult`. -/
structure updateBlocksResult where
  status : TickStatus
  madeExpiredBlocks : Nat
  madeUnwiredBlocks : Nat
  deriving DecidableEq, Repr

/-- Outcome of `updateBlocksWithLock`: its result record, the new series
state and the blocks it closed. -/
structure UpdateBlocksOutcome where
  result : updateBlocksResult
  series : dbSeries
  closedBlocks : List DatabaseBlock
  deriving DecidableEq, Repr

/-- `updateBlocksWithLock`: runs the per-block loop, then adds the buffer's
wired-block stats to both the active and wired totals (it never returns a
non-nil error). -/
def dbSeries.updateBlocksWithLock (s : dbSeries)
    (blockStates : ShardBlockStateSnapshot)
    (evictedBucketTimes : List Int) : UpdateBlocksOutcome :=
  let acc := tickLoop s.opts blockStates evictedBucketTimes s.cachedBlocks
  let bufferWired := s.buffer.Stats
  { result := ⟨⟨acc.activeBlocks + bufferWired, acc.wiredBlocks + bufferWired,
                acc.unwiredBlocks, acc.pendingMergeBlocks⟩,
               acc.madeExpiredBlocks, acc.madeUnwiredBlocks⟩,
    series := { s with cachedBlocks := acc.kept },
    closedBlocks := acc.closed }

/-- `TickResult`. -/
structure TickResult where
  status : TickStatus
  MergedOutOfOrderBlocks : Nat
  EvictedBuckets : Nat
  MadeExpiredBlocks : Nat
  MadeUnwiredBlocks : Nat
  deriving DecidableEq, Repr

/-- Outcome of `Tick`. -/
structure TickOutcome where
  result : TickResult
  err : Option seriesError
  series : dbSeries
  closedBlocks : List DatabaseBlock
  deriving DecidableEq, Repr

/-- `Tick`: buffer tick first, then `updateBlocksWithLock`; returns
`ErrSeriesAllDatapointsExpired` exactly when the resulting active-block
count is zero, with the counters populated either way. -/
def dbSeries.Tick (s : dbSeries) (blockStates : ShardBlockStateSnapshot) :
    TickOutcome :=
  let bufferResult := s.buffer.Tick
  let u := s.updateBlocksWithLock blockStates bufferResult.evictedBucketTimes
  let r : TickResult :=
    ⟨u.result.status, bufferResult.mergedOutOfOrderBlocks,
     bufferResult.evictedBucketTimes.length,
     u.result.madeExpiredBlocks, u.result.madeUnwiredBlocks⟩
  if u.result.status.ActiveBlocks = 0 then
    ⟨r, some seriesError.allDatapointsExpired, u.series, u.closedBlocks⟩
  else
    ⟨r, none, u.series, u.closedBlocks⟩

/-- `IsBootstrapped`. -/
def dbSeries.IsBootstrapped (s : dbSeries) : Bool :=
  decide (s.bs = bootstrapState.bootstrapped)

/-- `NumActiveBlocks`: cached blocks plus the buffer's wired blocks. -/
def dbSeries.NumActiveBlocks (s : dbSeries) : Nat :=
  s.cachedBlocks.length + s.buffer.Stats

/-- `BootstrapResult`. -/
structure BootstrapResult where
  numBlocksMovedToBuffer : Nat
  deriving DecidableEq, Repr

/-- Outcome of `bootstrap`. -/
structure BootstrapOutcome where
  result : BootstrapResult
  err : Option seriesError
  series : dbSeries

/-- `loadWithLock`: each block whose start the snapshot reports as not
warm-retrievable is loaded into the buffer as a `WarmWrite`, the rest as
`ColdWrite`. -/
def dbSeries.loadWithLock (s : dbSeries) (bootstrappedBlocks : List DatabaseBlock)
    (blockStates : BootstrappedBlockStateSnapshot) : dbSeries :=
  match bootstrappedBlocks with
  | [] => s
  | blk :: rest =>
    let s2 :=
      if !(blockStates.snapshot blk.startTime).warmRetrievable then
        { s with buffer := s.buffer.Load blk WriteType.WarmWrite }
      else
        { s with buffer := s.buffer.Load blk WriteType.ColdWrite }
    s2.loadWithLock rest blockStates

/-- `bootstrap`: the deferred assignment sets `bs = bootstrapped` on every
path; a second call returns `errSeriesAlreadyBootstrapped`; a nil block
collection is accepted without loading anything. -/
def dbSeries.bootstrap (s : dbSeries)
    (bootstrappedBlocks : Option (List DatabaseBlock))
    (blockStates : BootstrappedBlockStateSnapshot) : BootstrapOutcome :=
  if s.bs = bootstrapState.bootstrapped then
    ⟨⟨0⟩, some seriesError.alreadyBootstrapped,
      { s with bs := bootstrapState.bootstrapped }⟩
  else
    match bootstrappedBlocks with
    | none => ⟨⟨0⟩, none, { s with bs := bootstrapState.bootstrapped }⟩
    | some blocks =>
      let s2 := s.loadWithLock blocks blockStates
      ⟨⟨blocks.length⟩, none, { s2 with bs := bootstrapState.bootstrapped }⟩

/-- `load` (plain, non-bootstrap hydration). -/
def dbSeries.load (s : dbSeries) (bootstrappedBlocks : List DatabaseBlock)
    (blockStates : BootstrappedBlockStateSnapshot) : dbSeries :=
  s.loadWithLock bootstrappedBlocks blockStates

/-- `LoadOptions`. -/
structure LoadOptions where
  Bootstrap : Bool
  deriving DecidableEq, Repr

/-- `LoadResult`. -/
structure LoadResult where
  bootstrapResult : BootstrapResult
  deriving DecidableEq, Repr

/-- Outcome of `Load`. -/
structure LoadOutcome where
  result : LoadResult
  err : Option seriesError
  series : dbSeries

/-- `Load`: routes to `bootstrap` or plain `load` depending on
`opts.Bootstrap`. -/
def dbSeries.Load (s : dbSeries) (opts : LoadOptions)
    (bootstrappedBlocks : Option (List DatabaseBlock))
    (blockStates : BootstrappedBlockStateSnapshot) : LoadOutcome :=
  if opts.Bootstrap then
    let o := s.bootstrap bootstrappedBlocks blockStates
    ⟨⟨o.result⟩, o.err, o.series⟩
  else
    ⟨⟨⟨0⟩⟩, none, s.load (bootstrappedBlocks.getD []) blockStates⟩

/-- Outcome of `WarmFlush`. -/
structure WarmFlushOutcome where
  outcome : FlushOutcome
  err : Option seriesError
  series : dbSeries

/-- `WarmFlush`: requires `bootstrapped`, else `(FlushOutcomeErr,
errSeriesNotBootstrapped)` with no buffer call; otherwise delegates to
`buffer.WarmFlush` with the series identity and the supplied persistence
function. -/
def dbSeries.WarmFlush (s : dbSeries) (blockStart : Int) (persistFnId : Nat) :
    WarmFlushOutcome :=
  if s.bs ≠ bootstrapState.bootstrapped then
    ⟨FlushOutcome.FlushOutcomeErr, some seriesError.notBootstrapped, s⟩
  else
    let r := s.buffer.WarmFlush blockStart s.id s.tags persistFnId
    ⟨r.1, r.2.1.map seriesError.bufferError, { s with buffer := r.2.2 }⟩

/-- Outcome of `Snapshot`. -/
structure SnapshotOutcome where
  err : Option seriesError
  series : dbSeries

/-- `Snapshot`: requires `bootstrapped`, else `errSeriesNotBootstrapped`
with no buffer call; otherwise delegates to `buffer.Snapshot`. -/
def dbSeries.Snapshot (s : dbSeries) (blockStart : Int) (persistFnId : Nat) :
    SnapshotOutcome :=
  if s.bs ≠ bootstrapState.bootstrapped then
    ⟨some seriesError.notBootstrapped, s⟩
  else
    let r := s.buffer.Snapshot blockStart s.id s.tags persistFnId
    ⟨r.1.map seriesError.bufferError, { s with buffer := r.2 }⟩

/-- Outcome of `Close`. -/
structure CloseOutcome where
  series : dbSeries
  closedBlocks : List DatabaseBlock
  returnedToPool : Bool
  deriving DecidableEq, Repr

/-- `Close`: clears identity; under any policy other than `CacheLRU` it
calls `cachedBlocks.RemoveAll()`, which closes every contained block (under
`CacheLRU` nothing is closed here — the wired list owns disk-retrieved
blocks); then resets the buffer and the block cache and puts the instance
back into its pool when pooled. -/
def dbSeries.Close (s : dbSeries) : CloseOutcome :=
  let closedBlocks :=
    match s.opts.cachePolicy with
    | CachePolicy.CacheLRU => []
    | _ => s.cachedBlocks
  ⟨{ s with id := none, tags := [], buffer := resetBuffer, cachedBlocks := [] },
   closedBlocks, s.pooled⟩

/-- `id.Equal(s.id)`: the incoming identity compared against the series'
current (possibly cleared) identity. -/
def identEqual (id : Nat) (sid : Option Nat) : Bool :=
  sid == some id

/-- The block built inside `OnRetrieveBlock`: taken from the pool,
`ResetFromDisk(startTime, blockSize, segment, id)` marks it retrieved from
disk, and `SetLastReadTime(now)` stamps the read time (block construction
modelled from the spec; the block package is not in the supplied source). -/
def onRetrieveBuiltBlock (s : dbSeries) (startTime : Int) (segment : Nat) :
    DatabaseBlock :=
  { startTime := startTime
    blockSize := s.opts.blockSize
    segment := segment
    retrievedFromDisk := true
    lastReadTime := s.opts.now
    hasMergeTarget := false }

/-- Outcome of `OnRetrieveBlock`: the new series state and whether a
blocking wired-list update was issued after the lock was released. -/
structure RetrieveOutcome where
  series : dbSeries
  blockingWiredListUpdate : Bool
  deriving DecidableEq, Repr

/-- `OnRetrieveBlock`: ignored when the identity no longer matches;
otherwise the freshly built disk-retrieved block is emplaced in the block
cache and, when a wired list is configured, a blocking update is issued. -/
def dbSeries.OnRetrieveBlock (s : dbSeries) (id : Nat) (startTime : Int)
    (segment : Nat) : RetrieveOutcome :=
  if !(identEqual id s.id) then
    ⟨s, false⟩
  else
    let b := onRetrieveBuiltBlock s startTime segment
    ⟨{ s with cachedBlocks := AddBlock b s.cachedBlocks },
     s.opts.wiredListConfigured⟩

/-- What `OnEvictedFromWiredList` did. -/
inductive EvictAction where
  | identityMismatch
  | blockAbsent
  | invariantViolation
  | removed
  deriving DecidableEq, Repr

/-- Outcome of `OnEvictedFromWiredList`; `closedBlocks` records any blocks
the series closed during the call (the source never closes one here). -/
structure EvictOutcome where
  series : dbSeries
  action : EvictAction
  closedBlocks : List DatabaseBlock
  deriving DecidableEq, Repr

/-- `OnEvictedFromWiredList`: no-op on identity mismatch; when the block at
the given start is present it must be marked retrieved-from-disk (else an
invariant violation is logged and nothing changes); a matching
disk-retrieved block is removed from the cache without being closed. -/
def dbSeries.OnEvictedFromWiredList (s : dbSeries) (id : Nat)
    (blockStart : Int) : EvictOutcome :=
  if !(identEqual id s.id) then
    ⟨s, EvictAction.identityMismatch, []⟩
  else
    match BlockAt s.cachedBlocks blockStart with
    | none => ⟨s, EvictAction.blockAbsent, []⟩
    | some b =>
      if !b.retrievedFromDisk then
        ⟨s, EvictAction.invariantViolation, []⟩
      else
        ⟨{ s with cachedBlocks := RemoveBlockAt blockStart s.cachedBlocks },
         EvictAction.removed, []⟩

/-! ### Characterisations of the tick loop -/

theorem tickBlockBody_expired_iff (opts : Options) (bs : ShardBlockStateSnapshot)
    (ev : List Int) (b : DatabaseBlock) :
    (tickBlockBody opts bs ev b = BlockTickOutcome.expiredClosed ∨
      tickBlockBody opts bs ev b = BlockTickOutcome.expiredUnclosed) ↔
      blockExpired opts ev b = true := by
  unfold tickBlockBody
  cases h : blockExpired opts ev b <;> simp [h]
  · split
    · simp
    · split <;> simp
  · cases hd : b.retrievedFromDisk
    · exact Or.inl (fun _ => rfl)
    · by_cases hp : opts.cachePolicy = CachePolicy.CacheLRU
      · exact Or.inr ⟨hp, rfl⟩
      · exact Or.inl (fun hq => absurd hq hp)

theorem tickBlockBody_unwired_shouldUnwire (opts : Options)
    (bs : ShardBlockStateSnapshot) (ev : List Int) (b : DatabaseBlock)
    (h : tickBlockBody opts bs ev b = BlockTickOutcome.unwiredClosed) :
    blockShouldUnwire opts bs b = true := by
  unfold tickBlockBody at h
  split at h
  · split at h <;> simp at h
  · split at h
    · simp at h
    · split at h
      · assumption
      · simp at h

theorem blockShouldUnwire_warm (opts : Options) (bs : ShardBlockStateSnapshot)
    (b : DatabaseBlock) (h : blockShouldUnwire opts bs b = true) :
    ∃ snap, bs = some snap ∧ (snap.snapshot b.startTime).warmRetrievable = true := by
  cases bs with
  | none => simp [blockShouldUnwire] at h
  | some snap =>
    refine ⟨snap, rfl, ?_⟩
    cases hw : (snap.snapshot b.startTime).warmRetrievable
    · simp [blockShouldUnwire, hw] at h
    · rfl

theorem tickLoop_madeExpired (opts : Options) (bs : ShardBlockStateSnapshot)
    (ev : List Int) (blocks : List DatabaseBlock) :
    (tickLoop opts bs ev blocks).madeExpiredBlocks =
      blocks.countP (fun b => blockExpired opts ev b) := by
  induction blocks with
  | nil => simp [tickLoop]
  | cons b rest ih =>
    have hb := tickBlockBody_expired_iff opts bs ev b
    cases h : tickBlockBody opts bs ev b <;> rw [h] at hb <;> simp at hb <;>
      simp [tickLoop, h, List.countP_cons, ih, hb]

theorem tickLoop_madeUnwired_zero (opts : Options) (bs : ShardBlockStateSnapshot)
    (ev : List Int) (blocks : List DatabaseBlock)
    (h : ∀ b, tickBlockBody opts bs ev b ≠ BlockTickOutcome.unwiredClosed) :
    (tickLoop opts bs ev blocks).madeUnwiredBlocks = 0 := by
  induction blocks with
  | nil => simp [tickLoop]
  | cons b rest ih =>
    cases hb : tickBlockBody opts bs ev b <;>
      simp [tickLoop, hb, ih]
    exact absurd hb (h b)

theorem tickLoop_closed_filter (opts : Options) (bs : ShardBlockStateSnapshot)
    (ev : List Int) (blocks : List DatabaseBlock) :
    (tickLoop opts bs ev blocks).closed =
      blocks.filter (fun b =>
        decide (tickBlockBody opts bs ev b = BlockTickOutcome.expiredClosed ∨
          tickBlockBody opts bs ev b = BlockTickOutcome.unwiredClosed)) := by
  induction blocks with
  | nil => simp [tickLoop]
  | cons b rest ih =>
    cases h : tickBlockBody opts bs ev b <;>
      simp [tickLoop, h, List.filter_cons, ih]

theorem tickLoop_kept_filter (opts : Options) (bs : ShardBlockStateSnapshot)
    (ev : List Int) (blocks : List DatabaseBlock) :
    (tickLoop opts bs ev blocks).kept =
      blocks.filter (fun b =>
        decide (tickBlockBody opts bs ev b = BlockTickOutcome.wiredCacheAll ∨
          tickBlockBody opts bs ev b = BlockTickOutcome.wiredStay)) := by
  induction blocks with
  | nil => simp [tickLoop]
  | cons b rest ih =>
    cases h : tickBlockBody opts bs ev b <;>
      simp [tickLoop, h, List.filter_cons, ih]

/-- Projections of `Tick` in terms of the loop (both branches of the
all-expired check carry the same record). -/
theorem Tick_closedBlocks (s : dbSeries) (bs : ShardBlockStateSnapshot) :
    (s.Tick bs).closedBlocks =
      (tickLoop s.opts bs s.buffer.tickResult.evictedBucketTimes s.cachedBlocks).closed := by
  simp only [dbSeries.Tick, dbSeries.updateBlocksWithLock, databaseBuffer.Tick]
  split <;> rfl

theorem Tick_madeUnwired (s : dbSeries) (bs : ShardBlockStateSnapshot) :
    (s.Tick bs).result.MadeUnwiredBlocks =
      (tickLoop s.opts bs s.buffer.tickResult.evictedBucketTimes s.cachedBlocks).madeUnwiredBlocks := by
  simp only [dbSeries.Tick, dbSeries.updateBlocksWithLock, databaseBuffer.Tick]
  split <;> rfl

theorem Tick_madeExpired (s : dbSeries) (bs : ShardBlockStateSnapshot) :
    (s.Tick bs).result.MadeExpiredBlocks =
      (tickLoop s.opts bs s.buffer.tickResult.evictedBucketTimes s.cachedBlocks).madeExpiredBlocks := by
  simp only [dbSeries.Tick, dbSeries.updateBlocksWithLock, databaseBuffer.Tick]
  split <;> rfl

theorem Tick_cachedBlocks (s : dbSeries) (bs : ShardBlockStateSnapshot) :
    (s.Tick bs).series.cachedBlocks =
      (tickLoop s.opts bs s.buffer.tickResult.evictedBucketTimes s.cachedBlocks).kept := by
  simp only [dbSeries.Tick, dbSeries.updateBlocksWithLock, databaseBuffer.Tick]
  split <;> rfl

theorem Tick_result (s : dbSeries) (bs : ShardBlockStateSnapshot) :
    (s.Tick bs).result =
      ⟨(s.updateBlocksWithLock bs s.buffer.tickResult.evictedBucketTimes).result.status,
       s.buffer.tickResult.mergedOutOfOrderBlocks,
       s.buffer.tickResult.evictedBucketTimes.length,
       (s.updateBlocksWithLock bs s.buffer.tickResult.evictedBucketTimes).result.madeExpiredBlocks,
       (s.updateBlocksWithLock bs s.buffer.tickResult.evictedBucketTimes).result.madeUnwiredBlocks⟩ := by
  simp only [dbSeries.Tick, databaseBuffer.Tick]
  split <;> rfl

theorem Tick_err (s : dbSeries) (bs : ShardBlockStateSnapshot) :
    (s.Tick bs).err =
      (if (s.updateBlocksWithLock bs s.buffer.tickResult.evictedBucketTimes).result.status.ActiveBlocks = 0
       then some seriesError.allDatapointsExpired else none) := by
  simp only [dbSeries.Tick, databaseBuffer.Tick]
  split <;> simp_all

/-! ### Claim theorems -/

/-- Claim C1: during Tick, a non-expired cached block is unwired (removed
from the block cache and closed) only if the supplied block-state snapshot
is bootstrapped and reports the block's start as warm-retrievable; with a
snapshot reporting `WarmRetrievable = false` for every start, Tick performs
zero unwires under every cache policy. -/
theorem c1_unwire_only_when_warm_retrievable (s : dbSeries)
    (blockStates : ShardBlockStateSnapshot) :
    (∀ b : DatabaseBlock,
        b ∈ (s.Tick blockStates).closedBlocks →
        blockExpired s.opts s.buffer.tickResult.evictedBucketTimes b = false →
        ∃ snap, blockStates = some snap ∧
          (snap.snapshot b.startTime).warmRetrievable = true)
    ∧ ((∀ snap t, blockStates = some snap →
          (snap.snapshot t).warmRetrievable = false) →
        (s.Tick blockStates).result.MadeUnwiredBlocks = 0) := by
  constructor
  · intro b hb hexp
    rw [Tick_closedBlocks, tickLoop_closed_filter] at hb
    have hpred := (List.mem_filter.mp hb).2
    simp only [decide_eq_true_eq] at hpred
    rcases hpred with hpred | hpred
    · have htrue := (tickBlockBody_expired_iff _ _ _ _).mp (Or.inl hpred)
      rw [htrue] at hexp
      simp at hexp
    · exact blockShouldUnwire_warm _ _ _
        (tickBlockBody_unwired_shouldUnwire _ _ _ _ hpred)
  · intro hall
    rw [Tick_madeUnwired]
    apply tickLoop_madeUnwired_zero
    intro b hbody
    obtain ⟨snap, hsnap, hwarm⟩ :=
      blockShouldUnwire_warm _ _ _ (tickBlockBody_unwired_shouldUnwire _ _ _ _ hbody)
    rw [hall snap b.startTime hsnap] at hwarm
    simp at hwarm

/-- Claim C2: during Tick a cached block is counted as expired exactly when
its start precedes `expireCutoff` or the buffer reported it evicted this
cycle; each such block is removed from the cache, and closed unless the
cache policy is `CacheLRU` and the block was retrieved from disk (in which
case it is removed but left unclosed). -/
theorem c2_expired_blocks (s : dbSeries) (blockStates : ShardBlockStateSnapshot) :
    ((s.Tick blockStates).result.MadeExpiredBlocks =
        s.cachedBlocks.countP
          (fun b => blockExpired s.opts s.buffer.tickResult.evictedBucketTimes b))
    ∧ (∀ b, b ∈ s.cachedBlocks →
        blockExpired s.opts s.buffer.tickResult.evictedBucketTimes b = true →
          b ∉ (s.Tick blockStates).series.cachedBlocks
          ∧ (s.opts.cachePolicy = CachePolicy.CacheLRU ∧ b.retrievedFromDisk = true →
              b ∉ (s.Tick blockStates).closedBlocks)
          ∧ (¬(s.opts.cachePolicy = CachePolicy.CacheLRU ∧ b.retrievedFromDisk = true) →
              b ∈ (s.Tick blockStates).closedBlocks)) := by
  constructor
  · rw [Tick_madeExpired, tickLoop_madeExpired]
  · intro b hmem hexp
    have hbody : tickBlockBody s.opts blockStates s.buffer.tickResult.evictedBucketTimes b =
        (if s.opts.cachePolicy = CachePolicy.CacheLRU ∧ b.retrievedFromDisk = true
         then BlockTickOutcome.expiredUnclosed else BlockTickOutcome.expiredClosed) := by
      unfold tickBlockBody
      rw [hexp]
      simp
    by_cases hc : s.opts.cachePolicy = CachePolicy.CacheLRU ∧ b.retrievedFromDisk = true
    · rw [if_pos hc] at hbody
      refine ⟨?_, fun _ => ?_, fun hn => absurd hc hn⟩
      · rw [Tick_cachedBlocks, tickLoop_kept_filter]
        simp [List.mem_filter, hbody]
      · rw [Tick_closedBlocks, tickLoop_closed_filter]
        simp [List.mem_filter, hbody]
    · rw [if_neg hc] at hbody
      refine ⟨?_, fun hl => absurd hl hc, fun _ => ?_⟩
      · rw [Tick_cachedBlocks, tickLoop_kept_filter]
        simp [List.mem_filter, hbody]
      · rw [Tick_closedBlocks, tickLoop_closed_filter]
        exact List.mem_filter.mpr ⟨hmem, by simp [hbody]⟩

/-- Claim C7: Tick reports `ErrSeriesAllDatapointsExpired` exactly when the
active-block count (cached active blocks plus the buffer's wired count)
after the pass is zero, and the returned result carries the valid counters
of the completed pass in either case. -/
theorem c7_all_expired_sentinel (s : dbSeries) (blockStates : ShardBlockStateSnapshot) :
    ((s.Tick blockStates).err = some seriesError.allDatapointsExpired ↔
        (s.Tick blockStates).result.status.ActiveBlocks = 0)
    ∧ (s.Tick blockStates).result.status.ActiveBlocks =
        (tickLoop s.opts blockStates s.buffer.tickResult.evictedBucketTimes
          s.cachedBlocks).activeBlocks + s.buffer.wiredBlocks
    ∧ (s.Tick blockStates).result.status =
        (s.updateBlocksWithLock blockStates
          s.buffer.tickResult.evictedBucketTimes).result.status
    ∧ (s.Tick blockStates).result.MadeExpiredBlocks =
        (s.updateBlocksWithLock blockStates
          s.buffer.tickResult.evictedBucketTimes).result.madeExpiredBlocks
    ∧ (s.Tick blockStates).result.MadeUnwiredBlocks =
        (s.updateBlocksWithLock blockStates
          s.buffer.tickResult.evictedBucketTimes).result.madeUnwiredBlocks
    ∧ (s.Tick blockStates).result.MergedOutOfOrderBlocks =
        s.buffer.tickResult.mergedOutOfOrderBlocks
    ∧ (s.Tick blockStates).result.EvictedBuckets =
        s.buffer.tickResult.evictedBucketTimes.length
    ∧ ((s.Tick blockStates).err = none ∨
        (s.Tick blockStates).err = some seriesError.allDatapointsExpired) := by
  refine ⟨?_, ?_, ?_, ?_, ?_, ?_, ?_, ?_⟩
  · rw [Tick_err, Tick_result]
    by_cases h : (s.updateBlocksWithLock blockStates
        s.buffer.tickResult.evictedBucketTimes).result.status.ActiveBlocks = 0
    · rw [if_pos h]
      simp [h]
    · rw [if_neg h]
      simp [h]
  · rw [Tick_result]
    rfl
  · rw [Tick_result]
  · rw [Tick_result]
  · rw [Tick_result]
  · rw [Tick_result]
  · rw [Tick_result]
  · rw [Tick_err]
    split
    · exact Or.inr rfl
    · exact Or.inl rfl

theorem bootstrap_series_bs (s : dbSeries)
    (blocks : Option (List DatabaseBlock)) (st : BootstrappedBlockStateSnapshot) :
    (s.bootstrap blocks st).series.bs = bootstrapState.bootstrapped := by
  unfold dbSeries.bootstrap
  split
  · rfl
  · cases blocks <;> rfl

theorem set_bs_self (x : dbSeries) (h : x.bs = bootstrapState.bootstrapped) :
    { x with bs := bootstrapState.bootstrapped } = x := by
  cases x
  simp_all

/-- Claim C3: `Close` clears the series identity, closes the cached blocks
unless the cache policy is `CacheLRU` (under LRU nothing is closed here —
the wired list owns the close lifecycle of disk-retrieved blocks), resets
the write buffer and the block cache, and returns the instance to its pool
exactly when the series is pooled. -/
theorem c3_close (s : dbSeries) :
    (s.Close).series.id = none
    ∧ (s.Close).series.tags = []
    ∧ ((s.Close).closedBlocks =
        if s.opts.cachePolicy = CachePolicy.CacheLRU then [] else s.cachedBlocks)
    ∧ (s.Close).series.cachedBlocks = []
    ∧ (s.Close).series.buffer = resetBuffer
    ∧ (s.Close).returnedToPool = s.pooled := by
  cases h : s.opts.cachePolicy <;> simp [dbSeries.Close, h]

/-- Claim C4: every block handed to `loadWithLock` (the common path of both
bootstrap-mode and plain-mode `Load`) is loaded into the write buffer
tagged `WarmWrite` when its start is not warm-retrievable and `ColdWrite`
when it is. -/
theorem c4_load_routing (s : dbSeries) (blocks : List DatabaseBlock)
    (st : BootstrappedBlockStateSnapshot) :
    ((s.loadWithLock blocks st).buffer.loadCalls =
        s.buffer.loadCalls ++ blocks.map (fun b =>
          ⟨b, if (st.snapshot b.startTime).warmRetrievable
              then WriteType.ColdWrite else WriteType.WarmWrite⟩))
    ∧ ((s.Load ⟨false⟩ (some blocks) st).series.buffer.loadCalls =
        s.buffer.loadCalls ++ blocks.map (fun b =>
          ⟨b, if (st.snapshot b.startTime).warmRetrievable
              then WriteType.ColdWrite else WriteType.WarmWrite⟩))
    ∧ (s.bs = bootstrapState.bootstrapNotStarted →
        (s.Load ⟨true⟩ (some blocks) st).series.buffer.loadCalls =
          s.buffer.loadCalls ++ blocks.map (fun b =>
            ⟨b, if (st.snapshot b.startTime).warmRetrievable
                then WriteType.ColdWrite else WriteType.WarmWrite⟩)) := by
  have main : ∀ (blocks : List DatabaseBlock) (s : dbSeries),
      (s.loadWithLock blocks st).buffer.loadCalls =
        s.buffer.loadCalls ++ blocks.map (fun b =>
          ⟨b, if (st.snapshot b.startTime).warmRetrievable
              then WriteType.ColdWrite else WriteType.WarmWrite⟩) := by
    intro blocks
    induction blocks with
    | nil => intro s; simp [dbSeries.loadWithLock]
    | cons b rest ih =>
      intro s
      cases hw : (st.snapshot b.startTime).warmRetrievable <;>
        simp [dbSeries.loadWithLock, hw, ih, databaseBuffer.Load]
  refine ⟨main blocks s, ?_, ?_⟩
  · exact main blocks s
  · intro hbs
    have hne : ¬s.bs = bootstrapState.bootstrapped := by rw [hbs]; simp
    have hroute : (s.Load ⟨true⟩ (some blocks) st).series =
        (s.bootstrap (some blocks) st).series := rfl
    rw [hroute]
    unfold dbSeries.bootstrap
    rw [if_neg hne]
    exact main blocks s

/-- Claim C5: a second `bootstrap` on the same instance returns
`errSeriesAlreadyBootstrapped`, leaves the series (and in particular its
write buffer) unchanged, and moves zero blocks into the buffer. -/
theorem c5_bootstrap_twice (s : dbSeries)
    (blocks1 : Option (List DatabaseBlock)) (st1 : BootstrappedBlockStateSnapshot)
    (blocks2 : Option (List DatabaseBlock)) (st2 : BootstrappedBlockStateSnapshot) :
    (((s.bootstrap blocks1 st1).series.bootstrap blocks2 st2).err =
        some seriesError.alreadyBootstrapped)
    ∧ ((s.bootstrap blocks1 st1).series.bootstrap blocks2 st2).series =
        (s.bootstrap blocks1 st1).series
    ∧ (((s.bootstrap blocks1 st1).series.bootstrap blocks2 st2).result.numBlocksMovedToBuffer = 0) := by
  have h1 := bootstrap_series_bs s blocks1 st1
  set s1 := (s.bootstrap blocks1 st1).series with hs1
  have hsecond : s1.bootstrap blocks2 st2 =
      ⟨⟨0⟩, some seriesError.alreadyBootstrapped,
        { s1 with bs := bootstrapState.bootstrapped }⟩ := by
    unfold dbSeries.bootstrap
    rw [if_pos h1]
  rw [hsecond]
  exact ⟨rfl, set_bs_self _ h1, rfl⟩

/-- Claim C6: `WarmFlush` and `Snapshot` fail with
`errSeriesNotBootstrapped` and leave the series untouched (no buffer
delegation) when the series is not bootstrapped; when it is bootstrapped
they delegate to the write buffer with the series identity and the
supplied persistence function. -/
theorem c6_flush_requires_bootstrap (s : dbSeries) (t : Int) (p : Nat) :
    (s.bs ≠ bootstrapState.bootstrapped →
        s.WarmFlush t p =
          ⟨FlushOutcome.FlushOutcomeErr, some seriesError.notBootstrapped, s⟩
        ∧ s.Snapshot t p = ⟨some seriesError.notBootstrapped, s⟩)
    ∧ (s.bs = bootstrapState.bootstrapped →
        (s.WarmFlush t p).series.buffer.warmFlushCalls =
          s.buffer.warmFlushCalls ++ [⟨t, s.id, s.tags, p⟩]
        ∧ (s.WarmFlush t p).outcome = s.buffer.warmFlushOutcome
        ∧ (s.Snapshot t p).series.buffer.snapshotCalls =
          s.buffer.snapshotCalls ++ [⟨t, s.id, s.tags, p⟩]) := by
  constructor
  · intro h
    constructor
    · unfold dbSeries.WarmFlush
      rw [if_pos h]
    · unfold dbSeries.Snapshot
      rw [if_pos h]
  · intro h
    refine ⟨?_, ?_, ?_⟩
    · unfold dbSeries.WarmFlush
      rw [if_neg (by simp [h])]
      rfl
    · unfold dbSeries.WarmFlush
      rw [if_neg (by simp [h])]
      rfl
    · unfold dbSeries.Snapshot
      rw [if_neg (by simp [h])]
      rfl

/-- Claim C8: `OnRetrieveBlock` with a non-matching identity mutates
nothing and issues no wired-list update; with a matching identity it
emplaces a pool-built block marked retrieved-from-disk whose last-read
time is now, and issues a blocking wired-list update exactly when a wired
list is configured. -/
theorem c8_retrieve_identity_guard (s : dbSeries) (id : Nat) (t : Int) (seg : Nat) :
    (identEqual id s.id = false → s.OnRetrieveBlock id t seg = ⟨s, false⟩)
    ∧ (identEqual id s.id = true →
        (s.OnRetrieveBlock id t seg).series.cachedBlocks =
          AddBlock (onRetrieveBuiltBlock s t seg) s.cachedBlocks
        ∧ (onRetrieveBuiltBlock s t seg).retrievedFromDisk = true
        ∧ (onRetrieveBuiltBlock s t seg).lastReadTime = s.opts.now
        ∧ (onRetrieveBuiltBlock s t seg).startTime = t
        ∧ (s.OnRetrieveBlock id t seg).blockingWiredListUpdate =
            s.opts.wiredListConfigured) := by
  constructor
  · intro h
    unfold dbSeries.OnRetrieveBlock
    rw [if_pos (by simp [h])]
  · intro h
    unfold dbSeries.OnRetrieveBlock
    rw [if_neg (by simp [h])]
    exact ⟨rfl, rfl, rfl, rfl, rfl⟩

/-- Claim C9: `OnEvictedFromWiredList` is a no-op on identity mismatch;
with a matching identity and a cached block at the given start, the entry
is removed (without closing anything) exactly when the block is marked
retrieved-from-disk, and otherwise the invariant violation is logged and
nothing changes. -/
theorem c9_evict_guard (s : dbSeries) (id : Nat) (t : Int) :
    (identEqual id s.id = false →
        s.OnEvictedFromWiredList id t = ⟨s, EvictAction.identityMismatch, []⟩)
    ∧ (identEqual id s.id = true →
        ∀ b, BlockAt s.cachedBlocks t = some b →
          (b.retrievedFromDisk = true →
              s.OnEvictedFromWiredList id t =
                ⟨{ s with cachedBlocks := RemoveBlockAt t s.cachedBlocks },
                 EvictAction.removed, []⟩)
          ∧ (b.retrievedFromDisk = false →
              s.OnEvictedFromWiredList id t =
                ⟨s, EvictAction.invariantViolation, []⟩))
    ∧ (s.OnEvictedFromWiredList id t).closedBlocks = [] := by
  refine ⟨?_, ?_, ?_⟩
  · intro h
    unfold dbSeries.OnEvictedFromWiredList
    rw [if_pos (by simp [h])]
  · intro h b hb
    constructor
    · intro hd
      unfold dbSeries.OnEvictedFromWiredList
      rw [if_neg (by simp [h]), hb]
      simp [hd]
    · intro hd
      unfold dbSeries.OnEvictedFromWiredList
      rw [if_neg (by simp [h]), hb]
      simp [hd]
  · unfold dbSeries.OnEvictedFromWiredList
    split
    · rfl
    · split
      · rfl
      · split <;> rfl

/-- Claim C10: every `bootstrap` call — successful, nil-blocks, or failing
with `errSeriesAlreadyBootstrapped` — leaves the series in the
`bootstrapped` state; a first bootstrap with nil blocks succeeds while
loading nothing, and `WarmFlush`/`Snapshot` after any bootstrap can never
fail with `errSeriesNotBootstrapped`. -/
theorem c10_bootstrap_state_terminal (s : dbSeries)
    (blocks : Option (List DatabaseBlock)) (st : BootstrappedBlockStateSnapshot) :
    ((s.bootstrap blocks st).series.bs = bootstrapState.bootstrapped)
    ∧ (s.bs = bootstrapState.bootstrapNotStarted →
        (s.bootstrap none st).err = none
        ∧ (s.bootstrap none st).series = { s with bs := bootstrapState.bootstrapped })
    ∧ (∀ t p,
        ((s.bootstrap blocks st).series.WarmFlush t p).err ≠
          some seriesError.notBootstrapped
        ∧ ((s.bootstrap blocks st).series.Snapshot t p).err ≠
          some seriesError.notBootstrapped) := by
  refine ⟨bootstrap_series_bs s blocks st, ?_, ?_⟩
  · intro h
    unfold dbSeries.bootstrap
    rw [if_neg (by rw [h]; simp)]
    exact ⟨rfl, rfl⟩
  · intro t p
    have hbs := bootstrap_series_bs s blocks st
    constructor
    · unfold dbSeries.WarmFlush
      rw [if_neg (by simp [hbs])]
      cases hw : (s.bootstrap blocks st).series.buffer.warmFlushErr <;> simp [hw]
    · unfold dbSeries.Snapshot
      rw [if_neg (by simp [hbs])]
      cases hw : (s.bootstrap blocks st).series.buffer.snapshotErr <;> simp [hw]

/-! ### Concrete fixtures for the witnesses -/

/-- Snapshot reporting every block start as warm-retrievable. -/
def snapAllTrue : BootstrappedBlockStateSnapshot := ⟨fun _ => ⟨true⟩⟩

/-- Snapshot reporting no block start as warm-retrievable. -/
def snapAllFalse : BootstrappedBlockStateSnapshot := ⟨fun _ => ⟨false⟩⟩

/-- Options: now = 100, retention = 50, block size = 10 (so the expire
cutoff is 50), wired timeout = 1, `CacheNone`, no wired list. -/
def optsW : Options := ⟨100, 50, 10, 1, CachePolicy.CacheNone, false⟩

/-- A non-expired, non-disk-retrieved block (start 60 ≥ cutoff 50). -/
def blockW : DatabaseBlock := ⟨60, 10, 0, false, 0, false⟩

/-- An expired block (start 30 < cutoff 50). -/
def blockExp : DatabaseBlock := ⟨30, 10, 0, false, 0, false⟩

/-- A non-expired, disk-retrieved block. -/
def blockDisk : DatabaseBlock := ⟨60, 10, 0, true, 0, false⟩

/-- A bootstrapped series caching `blockW`. -/
def seriesW : dbSeries :=
  ⟨some 1, [], resetBuffer, [blockW], bootstrapState.bootstrapped, false, optsW⟩

/-- A bootstrapped series caching the expired `blockExp`. -/
def seriesE : dbSeries :=
  ⟨some 1, [], resetBuffer, [blockExp], bootstrapState.bootstrapped, false, optsW⟩

/-- A bootstrapped series caching the disk-retrieved `blockDisk`. -/
def seriesDisk : dbSeries :=
  ⟨some 1, [], resetBuffer, [blockDisk], bootstrapState.bootstrapped, false, optsW⟩

/-- A not-yet-bootstrapped series. -/
def seriesNB : dbSeries :=
  ⟨some 1, [], resetBuffer, [], bootstrapState.bootstrapNotStarted, false, optsW⟩

/-! ### Witnesses -/

/-- Witness for C1: under `CacheNone` with an all-true snapshot, `blockW`
is unwired and the snapshot indeed reports it warm-retrievable; with the
all-false snapshot the same series makes zero unwired blocks. -/
theorem c1_witness :
    (∃ snap, (some snapAllTrue : ShardBlockStateSnapshot) = some snap ∧
        (snap.snapshot blockW.startTime).warmRetrievable = true)
    ∧ (seriesW.Tick (some snapAllFalse)).result.MadeUnwiredBlocks = 0 :=
  ⟨(c1_unwire_only_when_warm_retrievable seriesW (some snapAllTrue)).1 blockW
      (by decide) (by decide),
   (c1_unwire_only_when_warm_retrievable seriesW (some snapAllFalse)).2
      (by intro snap t h; cases h; rfl)⟩

/-- Witness for C2: the expired `blockExp` is removed from the cache and,
the policy not being `CacheLRU`, closed. -/
theorem c2_witness :
    blockExp ∉ (seriesE.Tick (some snapAllTrue)).series.cachedBlocks
    ∧ blockExp ∈ (seriesE.Tick (some snapAllTrue)).closedBlocks :=
  have h := (c2_expired_blocks seriesE (some snapAllTrue)).2 blockExp
    (by decide) (by decide)
  ⟨h.1, h.2.2 (by decide)⟩

/-- Witness for C4: a first-time bootstrap `Load` of `blockW` against the
all-false snapshot records a `WarmWrite` load. -/
theorem c4_witness :
    (seriesNB.Load ⟨true⟩ (some [blockW]) snapAllFalse).series.buffer.loadCalls =
      seriesNB.buffer.loadCalls ++ [blockW].map (fun b =>
        ⟨b, if (snapAllFalse.snapshot b.startTime).warmRetrievable
            then WriteType.ColdWrite else WriteType.WarmWrite⟩) :=
  (c4_load_routing seriesNB [blockW] snapAllFalse).2.2 rfl

/-- Witness for C6: an unbootstrapped series rejects `WarmFlush` with
`errSeriesNotBootstrapped` untouched, while a bootstrapped one delegates
the call to its buffer. -/
theorem c6_witness :
    seriesNB.WarmFlush 0 7 =
      ⟨FlushOutcome.FlushOutcomeErr, some seriesError.notBootstrapped, seriesNB⟩
    ∧ (seriesW.WarmFlush 0 7).series.buffer.warmFlushCalls =
        seriesW.buffer.warmFlushCalls ++ [⟨0, seriesW.id, seriesW.tags, 7⟩] :=
  ⟨((c6_flush_requires_bootstrap seriesNB 0 7).1 (by decide)).1,
   ((c6_flush_requires_bootstrap seriesW 0 7).2 rfl).1⟩

/-- Witness for C8: a mismatched identity leaves the series untouched with
no wired-list update; a matching identity emplaces the freshly built
block. -/
theorem c8_witness :
    seriesW.OnRetrieveBlock 99 70 5 = ⟨seriesW, false⟩
    ∧ (seriesW.OnRetrieveBlock 1 70 5).series.cachedBlocks =
        AddBlock (onRetrieveBuiltBlock seriesW 70 5) seriesW.cachedBlocks :=
  ⟨(c8_retrieve_identity_guard seriesW 99 70 5).1 (by decide),
   ((c8_retrieve_identity_guard seriesW 1 70 5).2 (by decide)).1⟩

/-- Witness for C9: identity mismatch is a no-op; a matching disk-retrieved
block is removed without closing; a matching non-disk block triggers the
logged invariant violation and nothing changes. -/
theorem c9_witness :
    seriesDisk.OnEvictedFromWiredList 99 60 =
      ⟨seriesDisk, EvictAction.identityMismatch, []⟩
    ∧ seriesDisk.OnEvictedFromWiredList 1 60 =
        ⟨{ seriesDisk with cachedBlocks := RemoveBlockAt 60 seriesDisk.cachedBlocks },
         EvictAction.removed, []⟩
    ∧ seriesW.OnEvictedFromWiredList 1 60 =
        ⟨seriesW, EvictAction.invariantViolation, []⟩ :=
  ⟨(c9_evict_guard seriesDisk 99 60).1 (by decide),
   ((c9_evict_guard seriesDisk 1 60).2.1 (by decide) blockDisk (by decide)).1 rfl,
   ((c9_evict_guard seriesW 1 60).2.1 (by decide) blockW (by decide)).2 rfl⟩

/-- Witness for C10: a first bootstrap with nil blocks succeeds, and
`WarmFlush` after a bootstrap never reports `errSeriesNotBootstrapped`. -/
theorem c10_witness :
    (seriesNB.bootstrap none snapAllFalse).err = none
    ∧ ((seriesNB.bootstrap (some [blockW]) snapAllFalse).series.WarmFlush 0 7).err ≠
        some seriesError.notBootstrapped :=
  ⟨((c10_bootstrap_state_terminal seriesNB none snapAllFalse).2.1 rfl).1,
   ((c10_bootstrap_state_terminal seriesNB (some [blockW]) snapAllFalse).2.2 0 7).1⟩

end M3Series
